import Mathlib

/-!
Verification of the bounded-retry waiting primitive (`Waiter`) and its
polling call sites from `cnslibs/common/openshift_ops.py`.

The `Waiter` class lives in `cnslibs/common/waiter.py`, which is not part
of the source tree available here; its state machine is modelled from the
specification (spec.md, section 4.1).  The call sites
(`wait_for_resource_absence`, `wait_for_pod_be_ready`, `verify_pvc_size`,
`verify_pvc_status_is_bound`, `oc_create_sc`) are embedded from the
source of `openshift_ops.py`.

Time is modelled by an integer virtual clock.  A consumer is modelled by
a script: a list of probe behaviours, one per tick, each carrying the
duration the loop body takes and the outcome it produces.
-/

namespace GlusterOps

/-- Modelled from the spec: the `Waiter` class of `cnslibs/common/waiter.py`
is not in the source tree; this is the session state of spec.md section 3:
`timeout` and `interval` fixed at construction, `startTime` captured at the
first tick, `expired` set when the session stops because of timeout. -/
structure Waiter where
  timeout : Int
  interval : Int
  startTime : Int
  started : Bool
  expired : Bool
  deriving DecidableEq, Repr

/-- A freshly constructed session (no validation; see `mkWaiter`). -/
def Waiter.fresh (timeout interval : Int) : Waiter :=
  ⟨timeout, interval, 0, false, false⟩

def invalidArgumentMsg : String :=
  "invalid argument"

/-- Modelled from the spec (section 7): constructing a Waiter with a
negative timeout or a non-positive interval fails fast with an
invalid-argument error. -/
def mkWaiter (timeout interval : Int) : Except String Waiter :=
  if timeout < 0 ∨ interval ≤ 0 then Except.error invalidArgumentMsg
  else Except.ok (Waiter.fresh timeout interval)

/-- Modelled from the spec (section 4.1, Algorithm): one tick request at
virtual time `now`.  Returns the updated session and, when a tick is
granted, the time at which it is produced.
1. First request: record `startTime := now`, produce a tick immediately.
2. Later requests: if `elapsed ≥ timeout`, set `expired` and stop;
   otherwise sleep `interval` seconds, then produce a tick. -/
def Waiter.requestTick (w : Waiter) (now : Int) : Waiter × Option Int :=
  if w.started = false then
    (⟨w.timeout, w.interval, now, true, w.expired⟩, some now)
  else if w.timeout ≤ now - w.startTime then
    (⟨w.timeout, w.interval, w.startTime, w.started, true⟩, none)
  else
    (w, some (now + w.interval))

/-- Error classes raised by the polling call sites of `openshift_ops.py`. -/
inductive ErrKind where
  | executionError
  | assertionError
  deriving DecidableEq, Repr

/-- Outcome of one execution of a consumer's loop body. -/
inductive ProbeResult where
  | success
  | notYet
  | err (e : ErrKind)
  deriving DecidableEq, Repr

/-- How a consuming loop ended.  `starved` is a model artefact: the probe
script ran out before the loop ended. -/
inductive LoopExit where
  | broke
  | exhausted
  | raised (e : ErrKind)
  | starved
  deriving DecidableEq, Repr

/-- Trace of one consuming loop: the times at which ticks were produced,
the final session state, how the loop ended, the final clock, and the
total time spent sleeping between attempts. -/
structure RunResult where
  ticks : List Int
  w : Waiter
  exit : LoopExit
  clock : Int
  slept : Int
  deriving DecidableEq, Repr

/-- The polling idiom `for w in waiter.Waiter(...): body` driven by a
probe script.  Each granted tick consumes one probe `(d, pr)`: the body
runs for `d` time units and produces outcome `pr`.  `success` breaks out
of the loop, `err e` propagates the exception, `notYet` continues. -/
def runLoop : Waiter → Int → List (Int × ProbeResult) → RunResult
  | w, now, [] =>
    match (w.requestTick now).2 with
    | none => ⟨[], (w.requestTick now).1, LoopExit.exhausted, now, 0⟩
    | some t => ⟨[t], (w.requestTick now).1, LoopExit.starved, t, t - now⟩
  | w, now, (d, pr) :: rest =>
    match (w.requestTick now).2 with
    | none => ⟨[], (w.requestTick now).1, LoopExit.exhausted, now, 0⟩
    | some t =>
      match pr with
      | ProbeResult.success =>
        ⟨[t], (w.requestTick now).1, LoopExit.broke, t + d, t - now⟩
      | ProbeResult.err e =>
        ⟨[t], (w.requestTick now).1, LoopExit.raised e, t + d, t - now⟩
      | ProbeResult.notYet =>
        let r := runLoop (w.requestTick now).1 (t + d) rest
        ⟨t :: r.ticks, r.w, r.exit, r.clock, (t - now) + r.slept⟩

/-- All probe durations in a script are nonnegative. -/
def durationsNonneg (ps : List (Int × ProbeResult)) : Prop :=
  ∀ p ∈ ps, 0 ≤ p.1

/-- A script whose probes all take nonnegative time and never succeed nor
raise (the awaited condition never holds). -/
def allNotYet (ps : List (Int × ProbeResult)) : Prop :=
  ∀ p ∈ ps, 0 ≤ p.1 ∧ p.2 = ProbeResult.notYet

instance : DecidablePred durationsNonneg := by
  intro ps
  unfold durationsNonneg
  infer_instance

instance : DecidablePred allNotYet := by
  intro ps
  unfold allNotYet
  infer_instance

/-! ### Basic facts about `Waiter.requestTick` -/

theorem Waiter.requestTick_fresh (timeout interval now : Int) :
    (Waiter.fresh timeout interval).requestTick now =
      (⟨timeout, interval, now, true, false⟩, some now) := by
  simp [Waiter.fresh, Waiter.requestTick]

theorem Waiter.requestTick_started_stop (w : Waiter) (now : Int)
    (hs : w.started = true) (h : w.timeout ≤ now - w.startTime) :
    w.requestTick now =
      (⟨w.timeout, w.interval, w.startTime, w.started, true⟩, none) := by
  simp [Waiter.requestTick, hs, h]

theorem Waiter.requestTick_started_go (w : Waiter) (now : Int)
    (hs : w.started = true) (h : now - w.startTime < w.timeout) :
    w.requestTick now = (w, some (now + w.interval)) := by
  simp [Waiter.requestTick, hs, not_le.mpr h]

theorem Waiter.requestTick_some_expired (w w1 : Waiter) (now t : Int)
    (h : w.requestTick now = (w1, some t)) : w1.expired = w.expired := by
  unfold Waiter.requestTick at h
  split at h
  · exact (Prod.mk.injEq _ _ _ _ ▸ h).1 ▸ rfl
  · split at h
    · simp at h
    · exact (Prod.mk.injEq _ _ _ _ ▸ h).1 ▸ rfl

theorem Waiter.requestTick_none_expired (w w1 : Waiter) (now : Int)
    (h : w.requestTick now = (w1, none)) : w1.expired = true := by
  unfold Waiter.requestTick at h
  split at h
  · simp at h
  · split at h
    · exact (Prod.mk.injEq _ _ _ _ ▸ h).1 ▸ rfl
    · simp at h

theorem Waiter.requestTick_started_preserve (w : Waiter) (now : Int)
    (hs : w.started = true) :
    ((w.requestTick now).1).started = true ∧
    ((w.requestTick now).1).startTime = w.startTime ∧
    ((w.requestTick now).1).timeout = w.timeout ∧
    ((w.requestTick now).1).interval = w.interval := by
  unfold Waiter.requestTick
  simp only [hs]
  split
  · simp_all
  · split <;> simp [hs]

/-! ### Structural lemmas about `runLoop` -/

theorem runLoop_nil (w : Waiter) (now : Int) :
    runLoop w now [] =
      match (w.requestTick now).2 with
      | none => ⟨[], (w.requestTick now).1, LoopExit.exhausted, now, 0⟩
      | some t => ⟨[t], (w.requestTick now).1, LoopExit.starved, t, t - now⟩ := by
  rfl

theorem runLoop_cons (w : Waiter) (now d : Int) (pr : ProbeResult)
    (rest : List (Int × ProbeResult)) :
    runLoop w now ((d, pr) :: rest) =
      match (w.requestTick now).2 with
      | none => ⟨[], (w.requestTick now).1, LoopExit.exhausted, now, 0⟩
      | some t =>
        match pr with
        | ProbeResult.success =>
          ⟨[t], (w.requestTick now).1, LoopExit.broke, t + d, t - now⟩
        | ProbeResult.err e =>
          ⟨[t], (w.requestTick now).1, LoopExit.raised e, t + d, t - now⟩
        | ProbeResult.notYet =>
          let r := runLoop (w.requestTick now).1 (t + d) rest
          ⟨t :: r.ticks, r.w, r.exit, r.clock, (t - now) + r.slept⟩ := by
  rfl

theorem runLoop_nil_none (w w1 : Waiter) (now : Int)
    (h : w.requestTick now = (w1, none)) :
    runLoop w now [] = ⟨[], w1, LoopExit.exhausted, now, 0⟩ := by
  rw [runLoop_nil, h]

theorem runLoop_nil_some (w w1 : Waiter) (now t : Int)
    (h : w.requestTick now = (w1, some t)) :
    runLoop w now [] = ⟨[t], w1, LoopExit.starved, t, t - now⟩ := by
  rw [runLoop_nil, h]

theorem runLoop_cons_none (w w1 : Waiter) (now d : Int) (pr : ProbeResult)
    (rest : List (Int × ProbeResult)) (h : w.requestTick now = (w1, none)) :
    runLoop w now ((d, pr) :: rest) = ⟨[], w1, LoopExit.exhausted, now, 0⟩ := by
  rw [runLoop_cons, h]

theorem runLoop_cons_success (w w1 : Waiter) (now t d : Int)
    (rest : List (Int × ProbeResult)) (h : w.requestTick now = (w1, some t)) :
    runLoop w now ((d, ProbeResult.success) :: rest) =
      ⟨[t], w1, LoopExit.broke, t + d, t - now⟩ := by
  rw [runLoop_cons, h]

theorem runLoop_cons_err (w w1 : Waiter) (now t d : Int) (e : ErrKind)
    (rest : List (Int × ProbeResult)) (h : w.requestTick now = (w1, some t)) :
    runLoop w now ((d, ProbeResult.err e) :: rest) =
      ⟨[t], w1, LoopExit.raised e, t + d, t - now⟩ := by
  rw [runLoop_cons, h]

theorem runLoop_cons_notYet (w w1 : Waiter) (now t d : Int)
    (rest : List (Int × ProbeResult)) (h : w.requestTick now = (w1, some t)) :
    runLoop w now ((d, ProbeResult.notYet) :: rest) =
      ⟨t :: (runLoop w1 (t + d) rest).ticks, (runLoop w1 (t + d) rest).w,
        (runLoop w1 (t + d) rest).exit, (runLoop w1 (t + d) rest).clock,
        (t - now) + (runLoop w1 (t + d) rest).slept⟩ := by
  rw [runLoop_cons, h]

/-- Once a started session's elapsed time has reached its timeout, the run
immediately ends: no tick, exit `exhausted`, `expired` set. -/
theorem runLoop_stop (w : Waiter) (now : Int) (ps : List (Int × ProbeResult))
    (hs : w.started = true) (h : w.timeout ≤ now - w.startTime) :
    runLoop w now ps =
      ⟨[], ⟨w.timeout, w.interval, w.startTime, w.started, true⟩,
        LoopExit.exhausted, now, 0⟩ := by
  cases ps with
  | nil => rw [runLoop_nil, Waiter.requestTick_started_stop w now hs h]
  | cons p rest =>
    obtain ⟨d, pr⟩ := p
    rw [runLoop_cons, Waiter.requestTick_started_stop w now hs h]

/-- The final `expired` flag is true when the run ended by exhaustion, and
is the initial flag otherwise (a break, a raise, or starvation never sets
it). -/
theorem runLoop_expired_eq (ps : List (Int × ProbeResult)) (w : Waiter) (now : Int) :
    (runLoop w now ps).w.expired =
      (if (runLoop w now ps).exit = LoopExit.exhausted then true else w.expired) := by
  induction ps generalizing w now with
  | nil =>
    rw [runLoop_nil]
    cases hreq : (w.requestTick now).2 with
    | none =>
      have := Waiter.requestTick_none_expired w (w.requestTick now).1 now
        (by rw [← hreq])
      simp [this]
    | some t =>
      have := Waiter.requestTick_some_expired w (w.requestTick now).1 now t
        (by rw [← hreq])
      simp [this]
  | cons p rest ih =>
    obtain ⟨d, pr⟩ := p
    rw [runLoop_cons]
    cases hreq : (w.requestTick now).2 with
    | none =>
      have := Waiter.requestTick_none_expired w (w.requestTick now).1 now
        (by rw [← hreq])
      simp [this]
    | some t =>
      have he := Waiter.requestTick_some_expired w (w.requestTick now).1 now t
        (by rw [← hreq])
      cases pr with
      | success => simp [he]
      | err e => simp [he]
      | notYet => simpa [he] using ih (w.requestTick now).1 (t + d)

/-- A run from a started session preserves the session identity: the
budget (`timeout`, `interval`) and `startTime` are never changed, and the
session stays started. -/
theorem runLoop_started_preserve (ps : List (Int × ProbeResult)) (w : Waiter)
    (now : Int) (hs : w.started = true) :
    (runLoop w now ps).w.started = true ∧
    (runLoop w now ps).w.startTime = w.startTime ∧
    (runLoop w now ps).w.timeout = w.timeout ∧
    (runLoop w now ps).w.interval = w.interval := by
  induction ps generalizing w now with
  | nil =>
    rw [runLoop_nil]
    have hp := Waiter.requestTick_started_preserve w now hs
    cases hreq : (w.requestTick now).2 with
    | none => simpa using hp
    | some t => simpa using hp
  | cons p rest ih =>
    obtain ⟨d, pr⟩ := p
    rw [runLoop_cons]
    have hp := Waiter.requestTick_started_preserve w now hs
    cases hreq : (w.requestTick now).2 with
    | none => simpa using hp
    | some t =>
      cases pr with
      | success => simpa using hp
      | err e => simpa using hp
      | notYet =>
        have h2 := ih (w.requestTick now).1 (t + d) hp.1
        exact ⟨h2.1, h2.2.1.trans hp.2.1, h2.2.2.1.trans hp.2.2.1,
          h2.2.2.2.trans hp.2.2.2⟩

/-- A run from a fresh session ends started, with `startTime` equal to the
time of the first request and the constructed budget unchanged. -/
theorem runLoop_fresh_state (timeout interval now : Int)
    (ps : List (Int × ProbeResult)) :
    (runLoop (Waiter.fresh timeout interval) now ps).w.started = true ∧
    (runLoop (Waiter.fresh timeout interval) now ps).w.startTime = now ∧
    (runLoop (Waiter.fresh timeout interval) now ps).w.timeout = timeout ∧
    (runLoop (Waiter.fresh timeout interval) now ps).w.interval = interval := by
  cases ps with
  | nil =>
    rw [runLoop_nil, Waiter.requestTick_fresh]
    simp
  | cons p rest =>
    obtain ⟨d, pr⟩ := p
    rw [runLoop_cons, Waiter.requestTick_fresh]
    cases pr with
    | success => simp
    | err e => simp
    | notYet =>
      have := runLoop_started_preserve rest
        ⟨timeout, interval, now, true, false⟩ (now + d) rfl
      simpa using this

/-- A run only ends in `raised e` when some probe of the script raised
`e`: the Waiter itself never raises. -/
theorem runLoop_raised_mem (ps : List (Int × ProbeResult)) (w : Waiter)
    (now : Int) (e : ErrKind)
    (h : (runLoop w now ps).exit = LoopExit.raised e) :
    ∃ d, (d, ProbeResult.err e) ∈ ps := by
  induction ps generalizing w now with
  | nil =>
    rw [runLoop_nil] at h
    cases hreq : (w.requestTick now).2 <;> simp [hreq] at h
  | cons p rest ih =>
    obtain ⟨d, pr⟩ := p
    rw [runLoop_cons] at h
    cases hreq : (w.requestTick now).2 with
    | none => simp [hreq] at h
    | some t =>
      cases pr with
      | success => simp [hreq] at h
      | err e1 =>
        simp [hreq] at h
        exact ⟨d, by rw [h]; exact List.mem_cons_self _ _⟩
      | notYet =>
        simp only [hreq] at h
        obtain ⟨d1, hm⟩ := ih (w.requestTick now).1 (t + d) h
        exact ⟨d1, List.mem_cons_of_mem _ hm⟩

/-- Tick spacing from a started session: every produced tick lies at least
one interval after the request time, and consecutive ticks are at least
one interval apart. -/
theorem runLoop_ticks_started (ps : List (Int × ProbeResult)) (w : Waiter)
    (now : Int) (hs : w.started = true) (hd : durationsNonneg ps)
    (hi : 0 ≤ w.interval) :
    (∀ t ∈ (runLoop w now ps).ticks, now + w.interval ≤ t) ∧
    List.Chain' (fun a b => a + w.interval ≤ b) (runLoop w now ps).ticks := by
  induction ps generalizing w now with
  | nil =>
    by_cases h : w.timeout ≤ now - w.startTime
    · rw [runLoop_nil_none w _ now (Waiter.requestTick_started_stop w now hs h)]
      simp
    · rw [runLoop_nil_some w w now (now + w.interval)
        (Waiter.requestTick_started_go w now hs (not_le.mp h))]
      simp
  | cons p rest ih =>
    obtain ⟨d, pr⟩ := p
    have hd0 : 0 ≤ d := hd (d, pr) (List.mem_cons_self _ _)
    have hdrest : durationsNonneg rest := fun q hq => hd q (List.mem_cons_of_mem _ hq)
    by_cases h : w.timeout ≤ now - w.startTime
    · rw [runLoop_cons_none w _ now d pr rest (Waiter.requestTick_started_stop w now hs h)]
      simp
    · have hgo := Waiter.requestTick_started_go w now hs (not_le.mp h)
      cases pr with
      | success =>
        rw [runLoop_cons_success w w now (now + w.interval) d rest hgo]
        simp
      | err e =>
        rw [runLoop_cons_err w w now (now + w.interval) d e rest hgo]
        simp
      | notYet =>
        rw [runLoop_cons_notYet w w now (now + w.interval) d rest hgo]
        have hrec := ih w (now + w.interval + d) hs hdrest hi
        constructor
        · intro t ht
          rcases List.mem_cons.mp ht with h1 | h1
          · omega
          · have := hrec.1 t h1
            omega
        · refine List.chain'_cons'.mpr ⟨?_, hrec.2⟩
          intro y hy
          have := hrec.1 y (List.mem_of_mem_head? hy)
          omega

/-! ### Claims about the Waiter itself (spec-modelled) -/

/-- C1: for every Waiter session with nonnegative timeout, a fresh session
always grants its first tick (at least one attempt regardless of timeout),
a started session whose elapsed time has reached the timeout grants no
further tick, and a Waiter constructed with timeout 0 produces exactly one
tick when fully consumed. -/
theorem waiter_at_least_one_tick_and_stop_on_timeout
    (timeout interval t0 now : Int) (w : Waiter)
    (ps : List (Int × ProbeResult)) (hto : 0 ≤ timeout)
    (hs : w.started = true) (helapsed : w.timeout ≤ now - w.startTime)
    (hnotyet : allNotYet ps) :
    ((Waiter.fresh timeout interval).requestTick t0).2 = some t0 ∧
    (w.requestTick now).2 = none ∧
    (runLoop (Waiter.fresh 0 interval) t0 ps).ticks.length = 1 := by
  refine ⟨?_, ?_, ?_⟩
  · rw [Waiter.requestTick_fresh]
  · rw [Waiter.requestTick_started_stop w now hs helapsed]
  · cases ps with
    | nil =>
      rw [runLoop_nil_some (Waiter.fresh 0 interval) ⟨0, interval, t0, true, false⟩ t0 t0
        (Waiter.requestTick_fresh 0 interval t0)]
      rfl
    | cons p rest =>
      obtain ⟨d, pr⟩ := p
      have hp := hnotyet (d, pr) (List.mem_cons_self _ _)
      have hpr : pr = ProbeResult.notYet := hp.2
      have hd0 : 0 ≤ d := hp.1
      subst hpr
      rw [runLoop_cons_notYet (Waiter.fresh 0 interval) ⟨0, interval, t0, true, false⟩ t0 t0
        d rest (Waiter.requestTick_fresh 0 interval t0)]
      rw [runLoop_stop ⟨0, interval, t0, true, false⟩ (t0 + d) rest rfl
        (by show (0 : Int) ≤ t0 + d - t0; omega)]
      rfl

/-- C4 (amended): for every Waiter with 0 ≤ timeout < interval fully
consumed without a break (probes never succeed, nonnegative durations,
script long enough), at most two ticks are produced, the run ends
exhausted with `expired` true; and exactly one tick is produced — with no
sleep incurred — when the first probe alone already consumes the timeout
(in particular whenever timeout = 0). -/
theorem waiter_small_timeout_at_most_two_ticks
    (timeout interval t0 : Int) (ps : List (Int × ProbeResult))
    (h0 : 0 ≤ timeout) (hlt : timeout < interval)
    (hm : allNotYet ps) (hlen : 2 ≤ ps.length) :
    (runLoop (Waiter.fresh timeout interval) t0 ps).ticks.length ≤ 2 ∧
    (runLoop (Waiter.fresh timeout interval) t0 ps).exit = LoopExit.exhausted ∧
    (runLoop (Waiter.fresh timeout interval) t0 ps).w.expired = true ∧
    (∀ d rest, ps = (d, ProbeResult.notYet) :: rest → timeout ≤ d →
      (runLoop (Waiter.fresh timeout interval) t0 ps).ticks = [t0] ∧
      (runLoop (Waiter.fresh timeout interval) t0 ps).slept = 0) := by
  cases ps with
  | nil => simp at hlen
  | cons p ps1 =>
  cases ps1 with
  | nil => simp at hlen
  | cons q rest =>
  obtain ⟨d0, pr0⟩ := p
  obtain ⟨d1, pr1⟩ := q
  have h1 := hm (d0, pr0) (List.mem_cons_self _ _)
  have h2 := hm (d1, pr1) (List.mem_cons_of_mem _ (List.mem_cons_self _ _))
  have hpr0 : pr0 = ProbeResult.notYet := h1.2
  have hpr1 : pr1 = ProbeResult.notYet := h2.2
  have hd0 : 0 ≤ d0 := h1.1
  have hd1 : 0 ≤ d1 := h2.1
  subst hpr0; subst hpr1
  rw [runLoop_cons_notYet (Waiter.fresh timeout interval)
    ⟨timeout, interval, t0, true, false⟩ t0 t0 d0 _
    (Waiter.requestTick_fresh timeout interval t0)]
  by_cases hc : timeout ≤ d0
  · rw [runLoop_stop ⟨timeout, interval, t0, true, false⟩ (t0 + d0) _ rfl
      (by show timeout ≤ t0 + d0 - t0; omega)]
    refine ⟨by simp, by simp, by simp, ?_⟩
    intro d rest2 heq hd
    exact ⟨by simp, by simp⟩
  · have hgo : (⟨timeout, interval, t0, true, false⟩ : Waiter).requestTick (t0 + d0) =
        (⟨timeout, interval, t0, true, false⟩, some (t0 + d0 + interval)) :=
      Waiter.requestTick_started_go _ _ rfl (by show t0 + d0 - t0 < timeout; omega)
    rw [runLoop_cons_notYet ⟨timeout, interval, t0, true, false⟩
      ⟨timeout, interval, t0, true, false⟩ (t0 + d0) (t0 + d0 + interval) d1 rest hgo]
    rw [runLoop_stop ⟨timeout, interval, t0, true, false⟩ (t0 + d0 + interval + d1) rest rfl
      (by show timeout ≤ t0 + d0 + interval + d1 - t0; omega)]
    refine ⟨by simp, by simp, by simp, ?_⟩
    intro d rest2 heq hd
    simp only [List.cons.injEq, Prod.mk.injEq] at heq
    obtain ⟨⟨hde, -⟩, -⟩ := heq
    omega

/-- C5: for every Waiter session (fresh, nonnegative probe durations and
interval), the very first tick is produced immediately at the request
time, and any two consecutive produced ticks are at least one interval
apart (the driver sleeps `interval` between them). -/
theorem waiter_first_tick_immediate_and_spacing
    (timeout interval t0 : Int) (ps : List (Int × ProbeResult))
    (hd : durationsNonneg ps) (hi : 0 ≤ interval) :
    (runLoop (Waiter.fresh timeout interval) t0 ps).ticks.head? = some t0 ∧
    List.Chain' (fun a b => a + interval ≤ b)
      (runLoop (Waiter.fresh timeout interval) t0 ps).ticks := by
  cases ps with
  | nil =>
    rw [runLoop_nil_some (Waiter.fresh timeout interval) ⟨timeout, interval, t0, true, false⟩
      t0 t0 (Waiter.requestTick_fresh timeout interval t0)]
    simp
  | cons p rest =>
    obtain ⟨d, pr⟩ := p
    have hd0 : 0 ≤ d := hd (d, pr) (List.mem_cons_self _ _)
    have hdrest : durationsNonneg rest := fun q hq => hd q (List.mem_cons_of_mem _ hq)
    cases pr with
    | success =>
      rw [runLoop_cons_success (Waiter.fresh timeout interval)
        ⟨timeout, interval, t0, true, false⟩ t0 t0 d rest
        (Waiter.requestTick_fresh timeout interval t0)]
      simp
    | err e =>
      rw [runLoop_cons_err (Waiter.fresh timeout interval)
        ⟨timeout, interval, t0, true, false⟩ t0 t0 d e rest
        (Waiter.requestTick_fresh timeout interval t0)]
      simp
    | notYet =>
      rw [runLoop_cons_notYet (Waiter.fresh timeout interval)
        ⟨timeout, interval, t0, true, false⟩ t0 t0 d rest
        (Waiter.requestTick_fresh timeout interval t0)]
      have hrec := runLoop_ticks_started rest ⟨timeout, interval, t0, true, false⟩
        (t0 + d) rfl hdrest hi
      refine ⟨rfl, List.chain'_cons'.mpr ⟨?_, hrec.2⟩⟩
      intro y hy
      have h2 : t0 + d + interval ≤ y := hrec.1 y (List.mem_of_mem_head? hy)
      omega

/-- C6: the timeout check happens only at the start of each requested
tick: when the check passes (elapsed < timeout) the tick is granted after
the interval sleep with the session state untouched — never revoked, even
when the sleep pushes elapsed time past the timeout — while any later
request whose elapsed time has reached the timeout is denied. -/
theorem waiter_granted_tick_never_revoked (w : Waiter) (now : Int)
    (hs : w.started = true) (h : now - w.startTime < w.timeout) :
    (w.requestTick now).2 = some (now + w.interval) ∧
    (w.requestTick now).1 = w ∧
    (∀ later : Int, w.timeout ≤ later - w.startTime →
      (((w.requestTick now).1).requestTick later).2 = none) := by
  rw [Waiter.requestTick_started_go w now hs h]
  refine ⟨rfl, rfl, ?_⟩
  intro later hlater
  rw [Waiter.requestTick_started_stop w later hs hlater]

/-- C7: an exception raised by the caller's loop body during a tick is
never caught or suppressed by the Waiter: whatever probes remain, the run
ends immediately with that exception after the raising tick, producing no
further tick and leaving `expired` untouched. -/
theorem waiter_propagates_probe_exception (w w1 : Waiter) (now t d : Int)
    (e : ErrKind) (rest : List (Int × ProbeResult))
    (h : w.requestTick now = (w1, some t)) :
    runLoop w now ((d, ProbeResult.err e) :: rest) =
      ⟨[t], w1, LoopExit.raised e, t + d, t - now⟩ ∧
    w1.expired = w.expired := by
  constructor
  · rw [runLoop_cons, h]
  · exact Waiter.requestTick_some_expired w w1 now t h

/-- C8: constructing a Waiter with a negative timeout or a non-positive
interval fails fast with an invalid-argument error; apart from invalid
construction the Waiter itself never raises — a run can only end in a
raised exception that some probe of the caller's script produced. -/
theorem waiter_invalid_construction_fails_and_never_raises
    (timeout interval : Int) (hbad : timeout < 0 ∨ interval ≤ 0)
    (w : Waiter) (now : Int) (ps : List (Int × ProbeResult)) (e : ErrKind)
    (hr : (runLoop w now ps).exit = LoopExit.raised e) :
    mkWaiter timeout interval = Except.error invalidArgumentMsg ∧
    ∃ d, (d, ProbeResult.err e) ∈ ps := by
  constructor
  · rw [mkWaiter, if_pos hbad]
  · exact runLoop_raised_mem ps w now e hr

/-! ### Call sites embedded from `cnslibs/common/openshift_ops.py` -/

/-- Result of a Python call at a call site: a returned value, a raised
exception, or (model artefact) the probe script ran out first. -/
inductive PyResult (α : Type) where
  | ret (a : α)
  | exc (e : ErrKind)
  | incomplete
  deriving DecidableEq, Repr

def strTrue : String :=
  "true"

def strRunning : String :=
  "Running"

def strError : String :=
  "Error"

def strBound : String :=
  "Bound"

def strPending : String :=
  "Pending"

def strEmpty : String :=
  ""

def strPvc : String :=
  "pvc"

/-- One observation of `wait_for_pod_be_ready`'s probe: either the
`oc get pods` command failed (`ret != 0`), or it produced the container
ready flag and the pod phase. -/
inductive PodProbe where
  | cmdFail
  | status (ready : String) (phase : String)
  deriving DecidableEq, Repr

/-- Loop body of `wait_for_pod_be_ready` (openshift_ops.py lines 805-832):
a failed command raises ExecutionError; ready "true" in phase "Running"
returns True (break); phase "Error" raises ExecutionError; anything else
sleeps and retries. -/
def podProbeResult : PodProbe → ProbeResult
  | PodProbe.cmdFail => ProbeResult.err ErrKind.executionError
  | PodProbe.status ready phase =>
    if ready = strTrue ∧ phase = strRunning then ProbeResult.success
    else if phase = strError then ProbeResult.err ErrKind.executionError
    else ProbeResult.notYet

/-- The retry loop of `wait_for_pod_be_ready`. -/
def podRun (timeout wait_step t0 : Int) (probes : List (Int × PodProbe)) : RunResult :=
  runLoop (Waiter.fresh timeout wait_step) t0
    (probes.map (fun p => (p.1, podProbeResult p.2)))

/-- Post-loop of `wait_for_pod_be_ready` (lines 833-837): success inside
the loop returned True; `if w.expired: raise ExecutionError`; otherwise
the function falls through returning None. -/
def podExitResult : LoopExit → Bool → PyResult (Option Bool)
  | LoopExit.broke, _ => PyResult.ret (some true)
  | LoopExit.raised e, _ => PyResult.exc e
  | LoopExit.exhausted, ex =>
    if ex then PyResult.exc ErrKind.executionError else PyResult.ret none
  | LoopExit.starved, _ => PyResult.incomplete

/-- `wait_for_pod_be_ready` (openshift_ops.py lines 790-837). -/
def wait_for_pod_be_ready (timeout wait_step t0 : Int)
    (probes : List (Int × PodProbe)) : PyResult (Option Bool) × Waiter :=
  (podExitResult (podRun timeout wait_step t0 probes).exit
    (podRun timeout wait_step t0 probes).w.expired,
   (podRun timeout wait_step t0 probes).w)

/-- One observation of `verify_pvc_size`'s probe: the parsed
`spec.resources.requests.storage` and `status.capacity.storage` sizes. -/
def sizeProbeResult (size : Int) (p : Int × Int) : ProbeResult :=
  if p.1 = p.2 ∧ p.2 = size then ProbeResult.success else ProbeResult.notYet

/-- The retry loop of `verify_pvc_size` (openshift_ops.py lines 1033-1043). -/
def sizeRun (timeout wait_step t0 size : Int)
    (probes : List (Int × Int × Int)) : RunResult :=
  runLoop (Waiter.fresh timeout wait_step) t0
    (probes.map (fun p => (p.1, sizeProbeResult size p.2)))

/-- Post-loop of `verify_pvc_size` (lines 1045-1049): success inside the
loop returned True; once the loop is exhausted the function raises
AssertionError unconditionally, without consulting `expired`. -/
def sizeExitResult : LoopExit → PyResult Bool
  | LoopExit.broke => PyResult.ret true
  | LoopExit.raised e => PyResult.exc e
  | LoopExit.exhausted => PyResult.exc ErrKind.assertionError
  | LoopExit.starved => PyResult.incomplete

/-- `verify_pvc_size` (openshift_ops.py lines 1012-1049). -/
def verify_pvc_size (timeout wait_step t0 size : Int)
    (probes : List (Int × Int × Int)) : PyResult Bool × Waiter :=
  (sizeExitResult (sizeRun timeout wait_step t0 size probes).exit,
   (sizeRun timeout wait_step t0 size probes).w)

/-- Loop body observation of `wait_for_resource_absence`: whether this
attempt found the resource gone (loop 1: `oc_get_yaml` raised
AssertionError; loop 2: the `oc get pv | grep` command returned nonzero),
which breaks out of the loop. -/
def absenceProbe (gone : Bool) : ProbeResult :=
  if gone then ProbeResult.success else ProbeResult.notYet

/-- The first polling loop of `wait_for_resource_absence` (lines 566-571),
run on the freshly constructed `_waiter`. -/
def absenceRun1 (interval timeout t0 : Int) (probes1 : List (Int × Bool)) : RunResult :=
  runLoop (Waiter.fresh timeout interval) t0
    (probes1.map (fun p => (p.1, absenceProbe p.2)))

/-- The second polling loop of `wait_for_resource_absence` (lines 572-578),
run on the very same `_waiter` instance, continuing its clock. -/
def absenceRun2 (interval timeout t0 : Int)
    (probes1 probes2 : List (Int × Bool)) : RunResult :=
  runLoop (absenceRun1 interval timeout t0 probes1).w
    (absenceRun1 interval timeout t0 probes1).clock
    (probes2.map (fun p => (p.1, absenceProbe p.2)))

/-- `wait_for_resource_absence` (openshift_ops.py lines 564-583): one
Waiter `_waiter` is constructed; a first loop over `_waiter` polls
`oc_get_yaml`; when `rtype == 'pvc'` a second loop over the same
`_waiter` polls the PV claimRef; finally `if w.expired: raise
ExecutionError`.  Returns the outcome, the final session state, and the
number of ticks each of the two loops drew from the single instance. -/
def wait_for_resource_absence_run (rtype : String) (interval timeout t0 : Int)
    (probes1 probes2 : List (Int × Bool)) : PyResult Unit × Waiter × Nat × Nat :=
  if rtype = strPvc then
    ((if (absenceRun2 interval timeout t0 probes1 probes2).w.expired
        then PyResult.exc ErrKind.executionError else PyResult.ret ()),
      (absenceRun2 interval timeout t0 probes1 probes2).w,
      (absenceRun1 interval timeout t0 probes1).ticks.length,
      (absenceRun2 interval timeout t0 probes1 probes2).ticks.length)
  else
    ((if (absenceRun1 interval timeout t0 probes1).w.expired
        then PyResult.exc ErrKind.executionError else PyResult.ret ()),
      (absenceRun1 interval timeout t0 probes1).w,
      (absenceRun1 interval timeout t0 probes1).ticks.length, 0)

/-- One observation of `verify_pvc_status_is_bound`'s probe: either
`get_pvc_status` failed, or it returned the PVC status string. -/
inductive PvcProbe where
  | getFail
  | status (out : String)
  deriving DecidableEq, Repr

/-- `verify_pvc_status_is_bound` (openshift_ops.py lines 903-957),
threading the session, the clock and `pvc_not_found_counter` through the
loop.  Loop body: a failed `get` raises ExecutionError; empty output
sleeps once then raises AssertionError the second time; "Pending" sleeps
and retries; "Bound" returns the PVC name; "Error" or any other status
raises AssertionError.  Post-loop: `if w.expired: ... raise
AssertionError`. -/
def verify_pvc_status_is_bound_core (pvc_name : String) :
    Waiter → Int → Nat → List (Int × PvcProbe) → PyResult (Option String) × Waiter
  | w, now, _, [] =>
    match (w.requestTick now).2 with
    | none =>
      ((if (w.requestTick now).1.expired then PyResult.exc ErrKind.assertionError
        else PyResult.ret none), (w.requestTick now).1)
    | some _ => (PyResult.incomplete, (w.requestTick now).1)
  | w, now, counter, (d, p) :: rest =>
    match (w.requestTick now).2 with
    | none =>
      ((if (w.requestTick now).1.expired then PyResult.exc ErrKind.assertionError
        else PyResult.ret none), (w.requestTick now).1)
    | some t =>
      match p with
      | PvcProbe.getFail => (PyResult.exc ErrKind.executionError, (w.requestTick now).1)
      | PvcProbe.status out =>
        if out = strEmpty then
          if 0 < counter then (PyResult.exc ErrKind.assertionError, (w.requestTick now).1)
          else verify_pvc_status_is_bound_core pvc_name (w.requestTick now).1
            (t + d) (counter + 1) rest
        else if out = strPending then
          verify_pvc_status_is_bound_core pvc_name (w.requestTick now).1 (t + d) counter rest
        else if out = strBound then
          (PyResult.ret (some pvc_name), (w.requestTick now).1)
        else if out = strError then
          (PyResult.exc ErrKind.assertionError, (w.requestTick now).1)
        else
          (PyResult.exc ErrKind.assertionError, (w.requestTick now).1)

/-- `verify_pvc_status_is_bound`, from a fresh session with
`pvc_not_found_counter = 0`. -/
def verify_pvc_status_is_bound (pvc_name : String) (timeout wait_step t0 : Int)
    (probes : List (Int × PvcProbe)) : PyResult (Option String) × Waiter :=
  verify_pvc_status_is_bound_core pvc_name (Waiter.fresh timeout wait_step) t0 0 probes

/-- The fixed allowed-parameters list of `oc_create_sc`
(openshift_ops.py lines 301-306). -/
def allowed_parameters : List String :=
  "resturl" :: "secretnamespace" :: "restuser" :: "secretname" ::
  "restauthenabled" :: "restsecretnamespace" :: "restsecretname" ::
  "hacount" :: "clusterids" :: "chapauthenabled" :: "volumenameprefix" ::
  "volumeoptions" :: "volumetype" :: []

/-- Parameter filtering of `oc_create_sc` (lines 307-309): every keyword
parameter whose lowercased name is not in `allowed_parameters` is popped
from the dict; the survivors keep their original spelling. -/
def oc_create_sc_filtered (parameters : List (String × String)) :
    List (String × String) :=
  parameters.filter (fun p => allowed_parameters.contains p.1.toLower)

/-- The StorageClass payload built by `oc_create_sc` (lines 310-318);
name randomisation and JSON serialisation are out of scope. -/
structure ScData where
  sc_name : String
  provisioner : String
  parameters : List (String × String)
  allowVolumeExpansion : Bool
  deriving DecidableEq, Repr

/-- `oc_create_sc` (openshift_ops.py lines 285-320): builds the
StorageClass payload with only the surviving parameters; never fails on
unknown parameters. -/
def oc_create_sc (sc_name provisioner : String) (allowVolumeExpansion : Bool)
    (parameters : List (String × String)) : ScData :=
  ⟨sc_name, provisioner, oc_create_sc_filtered parameters, allowVolumeExpansion⟩

/-! ### Claims about the call sites -/

/-- C2 (amended): after the retry loop ends, `expired` is true exactly
when the loop was exhausted by timeout without the condition being met,
and false when the consumer stopped early on success;
`wait_for_pod_be_ready` then raises `exceptions.ExecutionError` exactly
when `expired` is true, while `verify_pvc_size` raises `AssertionError` —
not `ExecutionError` — unconditionally after its loop (which is reached
only when expired). -/
theorem polling_expired_flag_and_post_loop_errors
    (timeout ws t0 size : Int)
    (pp1 pp2 : List (Int × PodProbe)) (sp : List (Int × Int × Int))
    (h1 : (podRun timeout ws t0 pp1).exit = LoopExit.exhausted)
    (h2 : (podRun timeout ws t0 pp2).exit = LoopExit.broke)
    (h3 : (sizeRun timeout ws t0 size sp).exit = LoopExit.exhausted) :
    (podRun timeout ws t0 pp1).w.expired = true ∧
    (wait_for_pod_be_ready timeout ws t0 pp1).1 = PyResult.exc ErrKind.executionError ∧
    (podRun timeout ws t0 pp2).w.expired = false ∧
    (wait_for_pod_be_ready timeout ws t0 pp2).1 = PyResult.ret (some true) ∧
    (sizeRun timeout ws t0 size sp).w.expired = true ∧
    (verify_pvc_size timeout ws t0 size sp).1 = PyResult.exc ErrKind.assertionError := by
  have e1 : (podRun timeout ws t0 pp1).w.expired = true := by
    unfold podRun at h1 ⊢
    rw [runLoop_expired_eq, if_pos h1]
  have e2 : (podRun timeout ws t0 pp2).w.expired = false := by
    unfold podRun at h2 ⊢
    rw [runLoop_expired_eq, if_neg (by rw [h2]; simp)]
    rfl
  have e3 : (sizeRun timeout ws t0 size sp).w.expired = true := by
    unfold sizeRun at h3 ⊢
    rw [runLoop_expired_eq, if_pos h3]
  refine ⟨e1, ?_, e2, ?_, e3, ?_⟩
  · unfold wait_for_pod_be_ready
    rw [h1, e1]
    rfl
  · unfold wait_for_pod_be_ready
    rw [h2]
    rfl
  · unfold verify_pvc_size
    rw [h3]
    rfl

/-- C2, counterexample to the claim as stated: a fully exhausted
`verify_pvc_size` run ends with `expired = true`, yet the error the
caller raises is `AssertionError`, not the execution error the claim
requires. -/
theorem verify_pvc_size_raises_assertion_not_execution_error :
    (sizeRun 5 10 0 1 ((0, 2, 2) :: (0, 2, 2) :: [])).w.expired = true ∧
    (verify_pvc_size 5 10 0 1 ((0, 2, 2) :: (0, 2, 2) :: [])).1 =
      PyResult.exc ErrKind.assertionError ∧
    ¬ (verify_pvc_size 5 10 0 1 ((0, 2, 2) :: (0, 2, 2) :: [])).1 =
      PyResult.exc ErrKind.executionError := by
  decide

/-- C3 (amended): a Waiter session is single-use in that once its elapsed
time has reached the timeout it never grants another tick at any later
time; but not every call site iterates its Waiter only once:
`wait_for_resource_absence` with `rtype = 'pvc'` runs two consecutive
loops over the one `_waiter` instance, the second continuing the same
session (it is still started, with the original `startTime`). -/
theorem waiter_single_use_but_absence_iterates_twice
    (w : Waiter) (now later : Int) (hs : w.started = true)
    (hnl : w.timeout ≤ now - w.startTime) (hmono : now ≤ later)
    (interval timeout t0 : Int) (p1 p2 : List (Int × Bool)) :
    (w.requestTick later).2 = none ∧
    ((w.requestTick later).1).expired = true ∧
    (wait_for_resource_absence_run strPvc interval timeout t0 p1 p2).2.1.started = true ∧
    (wait_for_resource_absence_run strPvc interval timeout t0 p1 p2).2.1.startTime = t0 := by
  have hstop : w.timeout ≤ later - w.startTime := by omega
  have hw : (wait_for_resource_absence_run strPvc interval timeout t0 p1 p2).2.1 =
      (absenceRun2 interval timeout t0 p1 p2).w := by
    unfold wait_for_resource_absence_run
    rw [if_pos rfl]
  have hr1 := runLoop_fresh_state timeout interval t0
    (p1.map (fun p => (p.1, absenceProbe p.2)))
  have hr2 := runLoop_started_preserve (p2.map (fun p => (p.1, absenceProbe p.2)))
    (absenceRun1 interval timeout t0 p1).w (absenceRun1 interval timeout t0 p1).clock hr1.1
  refine ⟨?_, ?_, ?_, ?_⟩
  · rw [Waiter.requestTick_started_stop w later hs hstop]
  · rw [Waiter.requestTick_started_stop w later hs hstop]
  · rw [hw]
    exact hr2.1
  · rw [hw]
    exact hr2.2.1.trans hr1.2.1

/-- C3, counterexample to the claim as stated: in
`wait_for_resource_absence` with `rtype = 'pvc'` (source lines 566-578),
the same `_waiter` instance is iterated by two distinct loops, each
drawing at least one tick: the first loop draws 1 tick and the second
loop draws 2 ticks from the single instance. -/
theorem absence_call_site_iterates_one_waiter_twice :
    (wait_for_resource_absence_run strPvc 10 120 0 ((0, true) :: [])
      ((0, false) :: (0, true) :: [])).2.2.1 = 1 ∧
    (wait_for_resource_absence_run strPvc 10 120 0 ((0, true) :: [])
      ((0, false) :: (0, true) :: [])).2.2.2 = 2 ∧
    (wait_for_resource_absence_run strPvc 10 120 0 ((0, true) :: [])
      ((0, false) :: (0, true) :: [])).1 = PyResult.ret () := by
  decide

/-- C9: `verify_pvc_status_is_bound` returns the PVC name (not None) on a
tick that observes the 'Bound' status; when the session stops on timeout
it raises `AssertionError`; on an 'Error' or unrecognized status it also
raises `AssertionError`; and `AssertionError` is not
`exceptions.ExecutionError` — contradicting the docstring's declared
`Returns: None` and `Raises: exceptions.ExecutionError`. -/
theorem verify_pvc_status_bound_returns_name_and_asserts
    (pvc_name : String)
    (wa wa1 : Waiter) (nowa ta da : Int) (ca : Nat) (resta : List (Int × PvcProbe))
    (hga : wa.requestTick nowa = (wa1, some ta))
    (wb wb1 : Waiter) (nowb : Int) (cb : Nat) (psb : List (Int × PvcProbe))
    (hgb : wb.requestTick nowb = (wb1, none))
    (wc wc1 : Waiter) (nowc tc dc : Int) (cc : Nat) (restc : List (Int × PvcProbe))
    (out : String) (hgc : wc.requestTick nowc = (wc1, some tc))
    (ho1 : out ≠ strEmpty) (ho2 : out ≠ strPending) (ho3 : out ≠ strBound) :
    verify_pvc_status_is_bound_core pvc_name wa nowa ca
        ((da, PvcProbe.status strBound) :: resta) =
      (PyResult.ret (some pvc_name), wa1) ∧
    verify_pvc_status_is_bound_core pvc_name wb nowb cb psb =
      (PyResult.exc ErrKind.assertionError, wb1) ∧
    verify_pvc_status_is_bound_core pvc_name wc nowc cc
        ((dc, PvcProbe.status out) :: restc) =
      (PyResult.exc ErrKind.assertionError, wc1) ∧
    (PyResult.exc ErrKind.assertionError : PyResult (Option String)) ≠
      PyResult.exc ErrKind.executionError := by
  refine ⟨?_, ?_, ?_, by decide⟩
  · unfold verify_pvc_status_is_bound_core
    rw [hga]
    simp [strBound, strEmpty, strPending]
  · have hexp : wb1.expired = true := Waiter.requestTick_none_expired wb wb1 nowb hgb
    cases psb with
    | nil =>
      unfold verify_pvc_status_is_bound_core
      rw [hgb]
      simp [hexp]
    | cons p rest =>
      obtain ⟨d, pp⟩ := p
      unfold verify_pvc_status_is_bound_core
      rw [hgb]
      simp [hexp]
  · unfold verify_pvc_status_is_bound_core
    rw [hgc]
    simp only [if_neg ho1, if_neg ho2, if_neg ho3]
    rw [ite_self]

/-- C10: `oc_create_sc` silently drops every keyword parameter whose
lowercased name is not in the fixed `allowed_parameters` list — a
parameter survives into the StorageClass payload exactly when it was
passed and its lowercased name is allowed — and the rest of the payload
is built from the given arguments unchanged, with no error on unknown
parameters. -/
theorem oc_create_sc_drops_unknown_parameters
    (sc prov : String) (ave : Bool) (ps : List (String × String))
    (q : String × String) :
    (q ∈ (oc_create_sc sc prov ave ps).parameters ↔
      q ∈ ps ∧ q.1.toLower ∈ allowed_parameters) ∧
    (oc_create_sc sc prov ave ps).sc_name = sc ∧
    (oc_create_sc sc prov ave ps).provisioner = prov ∧
    (oc_create_sc sc prov ave ps).allowVolumeExpansion = ave := by
  refine ⟨?_, rfl, rfl, rfl⟩
  simp [oc_create_sc, oc_create_sc_filtered, List.mem_filter]

/-! ### Counterexample for C4 and witnesses -/

/-- C4, counterexample to the claim as stated: `Waiter(timeout=5,
interval=10)` — so timeout < interval — fully consumed with instantaneous
probes and no break produces two ticks (at t=0 and t=10), not exactly
one. -/
theorem waiter_small_timeout_two_ticks_cex :
    ¬ ((runLoop (Waiter.fresh 5 10) 0 ((0, ProbeResult.notYet) ::
        (0, ProbeResult.notYet) :: (0, ProbeResult.notYet) :: [])).ticks.length = 1) ∧
    (runLoop (Waiter.fresh 5 10) 0 ((0, ProbeResult.notYet) ::
        (0, ProbeResult.notYet) :: (0, ProbeResult.notYet) :: [])).ticks =
      (0 : Int) :: 10 :: [] ∧
    (runLoop (Waiter.fresh 5 10) 0 ((0, ProbeResult.notYet) ::
        (0, ProbeResult.notYet) :: (0, ProbeResult.notYet) :: [])).exit =
      LoopExit.exhausted := by
  decide

/-- Witness for C1 at timeout 7, interval 3, a session expired at t = 9,
and a timeout-0 session with one scripted probe. -/
theorem waiter_at_least_one_tick_witness :
    ((Waiter.fresh 7 3).requestTick 0).2 = some 0 ∧
    ((⟨7, 3, 0, true, false⟩ : Waiter).requestTick 9).2 = none ∧
    (runLoop (Waiter.fresh 0 3) 0 ((0, ProbeResult.notYet) :: [])).ticks.length = 1 :=
  waiter_at_least_one_tick_and_stop_on_timeout 7 3 0 9 ⟨7, 3, 0, true, false⟩
    ((0, ProbeResult.notYet) :: []) (by decide) rfl (by decide) (by decide)

/-- Witness for C4 (amended) at `Waiter(timeout=0, interval=10)`: exactly
one tick at t = 0, no sleep incurred, `expired` true. -/
theorem waiter_small_timeout_witness :
    (runLoop (Waiter.fresh 0 10) 0
      ((0, ProbeResult.notYet) :: (0, ProbeResult.notYet) :: [])).ticks.length ≤ 2 ∧
    (runLoop (Waiter.fresh 0 10) 0
      ((0, ProbeResult.notYet) :: (0, ProbeResult.notYet) :: [])).exit =
      LoopExit.exhausted ∧
    (runLoop (Waiter.fresh 0 10) 0
      ((0, ProbeResult.notYet) :: (0, ProbeResult.notYet) :: [])).w.expired = true ∧
    (runLoop (Waiter.fresh 0 10) 0
      ((0, ProbeResult.notYet) :: (0, ProbeResult.notYet) :: [])).ticks = [(0 : Int)] ∧
    (runLoop (Waiter.fresh 0 10) 0
      ((0, ProbeResult.notYet) :: (0, ProbeResult.notYet) :: [])).slept = 0 := by
  have h := waiter_small_timeout_at_most_two_ticks 0 10 0
    ((0, ProbeResult.notYet) :: (0, ProbeResult.notYet) :: [])
    (by decide) (by decide) (by decide) (by decide)
  have h4 := h.2.2.2 0 ((0, ProbeResult.notYet) :: []) rfl (by decide)
  exact ⟨h.1, h.2.1, h.2.2.1, h4.1, h4.2⟩

/-- Witness for C5 at `Waiter(timeout=5, interval=2)` with three
instantaneous probes: first tick at t = 0, consecutive ticks ≥ 2 apart. -/
theorem waiter_spacing_witness :
    (runLoop (Waiter.fresh 5 2) 0 ((0, ProbeResult.notYet) ::
      (0, ProbeResult.notYet) :: (0, ProbeResult.notYet) :: [])).ticks.head? =
      some 0 ∧
    List.Chain' (fun a b => a + 2 ≤ b)
      (runLoop (Waiter.fresh 5 2) 0 ((0, ProbeResult.notYet) ::
        (0, ProbeResult.notYet) :: (0, ProbeResult.notYet) :: [])).ticks :=
  waiter_first_tick_immediate_and_spacing 5 2 0 ((0, ProbeResult.notYet) ::
    (0, ProbeResult.notYet) :: (0, ProbeResult.notYet) :: []) (by decide) (by decide)

/-- Witness for C6: at t = 3 with timeout 5, interval 10 the check passes,
the tick is produced at t = 13 — past the timeout — and the next request
at t = 13 is denied. -/
theorem waiter_never_revoked_witness :
    ((⟨5, 10, 0, true, false⟩ : Waiter).requestTick 3).2 = some 13 ∧
    ((⟨5, 10, 0, true, false⟩ : Waiter).requestTick 3).1 = ⟨5, 10, 0, true, false⟩ ∧
    ((((⟨5, 10, 0, true, false⟩ : Waiter).requestTick 3).1).requestTick 13).2 = none := by
  have h := waiter_granted_tick_never_revoked ⟨5, 10, 0, true, false⟩ 3 rfl (by decide)
  exact ⟨h.1.trans (by decide), h.2.1, h.2.2 13 (by decide)⟩

/-- Witness for C7: a probe raising ExecutionError on the first tick
aborts the session at once, whatever probes remain. -/
theorem waiter_propagates_witness :
    runLoop (Waiter.fresh 5 10) 0 ((2, ProbeResult.err ErrKind.executionError) ::
        (0, ProbeResult.notYet) :: []) =
      ⟨[0], ⟨5, 10, 0, true, false⟩, LoopExit.raised ErrKind.executionError, 2, 0⟩ ∧
    (⟨5, 10, 0, true, false⟩ : Waiter).expired = (Waiter.fresh 5 10).expired := by
  have h := waiter_propagates_probe_exception (Waiter.fresh 5 10)
    ⟨5, 10, 0, true, false⟩ 0 0 2 ErrKind.executionError
    ((0, ProbeResult.notYet) :: []) (by decide)
  exact ⟨h.1.trans (by decide), h.2⟩

/-- Witness for C8: `Waiter(timeout=-1, interval=1)` fails with the
invalid-argument error, and a raised run's exception came from a probe. -/
theorem waiter_invalid_construction_witness :
    mkWaiter (-1) 1 = Except.error invalidArgumentMsg ∧
    ∃ d, (d, ProbeResult.err ErrKind.executionError) ∈
      ((0, ProbeResult.err ErrKind.executionError) :: ([] : List (Int × ProbeResult))) :=
  waiter_invalid_construction_fails_and_never_raises (-1) 1 (by decide)
    (Waiter.fresh 5 1) 0 ((0, ProbeResult.err ErrKind.executionError) :: [])
    ErrKind.executionError (by decide)

/-- Witness for C2 (amended) at timeout 5, wait step 10: a never-ready pod
run exhausts and raises ExecutionError; a ready pod run breaks with
`expired` false; a wrong-size PVC run exhausts and raises AssertionError. -/
theorem polling_expired_flag_witness :
    (podRun 5 10 0 ((0, PodProbe.status strEmpty strPending) ::
      (0, PodProbe.status strEmpty strPending) :: [])).w.expired = true ∧
    (wait_for_pod_be_ready 5 10 0 ((0, PodProbe.status strEmpty strPending) ::
      (0, PodProbe.status strEmpty strPending) :: [])).1 =
      PyResult.exc ErrKind.executionError ∧
    (podRun 5 10 0 ((0, PodProbe.status strTrue strRunning) :: [])).w.expired = false ∧
    (wait_for_pod_be_ready 5 10 0 ((0, PodProbe.status strTrue strRunning) :: [])).1 =
      PyResult.ret (some true) ∧
    (sizeRun 5 10 0 1 ((0, 2, 2) :: (0, 2, 2) :: [])).w.expired = true ∧
    (verify_pvc_size 5 10 0 1 ((0, 2, 2) :: (0, 2, 2) :: [])).1 =
      PyResult.exc ErrKind.assertionError :=
  polling_expired_flag_and_post_loop_errors 5 10 0 1
    ((0, PodProbe.status strEmpty strPending) ::
      (0, PodProbe.status strEmpty strPending) :: [])
    ((0, PodProbe.status strTrue strRunning) :: [])
    ((0, 2, 2) :: (0, 2, 2) :: []) (by decide) (by decide) (by decide)

/-- Witness for C3 (amended): an expired session denies a later request,
and the pvc branch of `wait_for_resource_absence` leaves the shared
session started with its original start time. -/
theorem waiter_single_use_witness :
    ((⟨120, 10, 0, true, false⟩ : Waiter).requestTick 130).2 = none ∧
    ((((⟨120, 10, 0, true, false⟩ : Waiter).requestTick 130)).1).expired = true ∧
    (wait_for_resource_absence_run strPvc 10 120 0 ((0, true) :: [])
      ((0, false) :: (0, true) :: [])).2.1.started = true ∧
    (wait_for_resource_absence_run strPvc 10 120 0 ((0, true) :: [])
      ((0, false) :: (0, true) :: [])).2.1.startTime = 0 :=
  waiter_single_use_but_absence_iterates_twice ⟨120, 10, 0, true, false⟩ 120 130 rfl
    (by decide) (by decide) 10 120 0 ((0, true) :: []) ((0, false) :: (0, true) :: [])

/-- Witness for C9: a 'Bound' tick returns the PVC name; a timed-out
session raises AssertionError; an 'Error' status raises AssertionError. -/
theorem verify_pvc_status_bound_witness :
    verify_pvc_status_is_bound_core strPvc ⟨120, 3, 0, true, false⟩ 1 0
        ((0, PvcProbe.status strBound) :: []) =
      (PyResult.ret (some strPvc), ⟨120, 3, 0, true, false⟩) ∧
    verify_pvc_status_is_bound_core strPvc ⟨120, 3, 0, true, false⟩ 200 0 [] =
      (PyResult.exc ErrKind.assertionError, ⟨120, 3, 0, true, true⟩) ∧
    verify_pvc_status_is_bound_core strPvc ⟨120, 3, 0, true, false⟩ 1 0
        ((0, PvcProbe.status strError) :: []) =
      (PyResult.exc ErrKind.assertionError, ⟨120, 3, 0, true, false⟩) ∧
    (PyResult.exc ErrKind.assertionError : PyResult (Option String)) ≠
      PyResult.exc ErrKind.executionError :=
  verify_pvc_status_bound_returns_name_and_asserts strPvc
    ⟨120, 3, 0, true, false⟩ ⟨120, 3, 0, true, false⟩ 1 4 0 0 [] (by decide)
    ⟨120, 3, 0, true, false⟩ ⟨120, 3, 0, true, true⟩ 200 0 [] (by decide)
    ⟨120, 3, 0, true, false⟩ ⟨120, 3, 0, true, false⟩ 1 4 0 0 [] strError (by decide)
    (by decide) (by decide) (by decide)

end GlusterOps
